import Mathlib

/-!
Verification of the MedSigLIP serving wrapper
(`ai-detection-node/medsigclip_server.py`).

The server is a thin HTTP wrapper around an opaque pretrained image/text
similarity model.  We embed the wrapper's logic shallowly:

* An image is a pixel array (width, height, pixel function).  The external
  model is an abstract parameter `M : Img → String → ℚ` giving the softmaxed
  probability of each label for an image; the spec states scoring is a
  deterministic pure function, so a total function is a faithful model.
* Decoding uploaded bytes (`Image.open(...).convert('RGB')`) is an abstract
  parameter `decode : Bytes → Except String Img`; corrupt bytes are the
  `.error` case, carrying the exception message.
* Python exceptions become `Except String`; each HTTP handler is a total
  function returning `(body, status)`, mirroring Flask's
  `return jsonify(...), code` tuples (a bare `jsonify(...)` is status 200).
* CPython's stable `list.sort(key=..., reverse=True)` is embedded as
  insertion sort with the relation "score ≥ score": a stable sort by the
  same key produces a unique output, so the two agree.
* Inside `detect_regions`, the Python code re-encodes each crop as JPEG and
  runs `classify_image` on the re-read bytes; the serialization round-trip
  is modelled as the identity on pixel arrays, so classifying a region is
  applying the classifier to the cropped image.
* Machine floats become ℚ; scientific literals such as `0.7` are exact
  rationals.
-/

namespace MedSig

/-- Raw uploaded bytes (contents irrelevant to the wrapper's control flow). -/
abbrev Bytes := List Nat

/-- A decoded RGB image: dimensions plus a pixel function. -/
structure Img where
  width : Nat
  height : Nat
  pixel : Nat → Nat → Nat × Nat × Nat

/-- `PIL.Image.crop((x, y, x+w, y+h))`: a `w × h` view whose pixel `(i, j)`
is the source pixel `(x+i, y+j)`. -/
def Img.cropRect (img : Img) (x y w h : Nat) : Img :=
  ⟨w, h, fun i j => img.pixel (x + i) (y + j)⟩

/-- The fixed label set (`MEDICAL_CONDITIONS`, lines 23-34 of the source). -/
def MEDICAL_CONDITIONS : List String :=
  ["pneumonia", "pleural effusion", "cardiomegaly", "lung nodule",
   "atelectasis", "consolidation", "pulmonary edema", "mass",
   "fracture", "normal anatomy"]

/-- One entry of a classification response (label, score, confidence). -/
structure ClsResult where
  label : String
  score : ℚ
  confidence : String
deriving DecidableEq

instance : Inhabited ClsResult := ⟨⟨"", 0, ""⟩⟩

/-- Line 79 of the source:
`'high' if probs[i] > 0.7 else 'medium' if probs[i] > 0.4 else 'low'`. -/
def confidenceBucket (s : ℚ) : String :=
  if s > 0.7 then "high" else if s > 0.4 then "medium" else "low"

/-- The model abstraction: softmaxed probability of a label for an image. -/
abbrev Model := Img → String → ℚ

/-- Lines 74-80: the unsorted result list, one entry per condition, in
label-set order. -/
def rawResults (M : Model) (img : Img) : List ClsResult :=
  MEDICAL_CONDITIONS.map fun c => ⟨c, M img c, confidenceBucket (M img c)⟩

/-- The sort relation of `results.sort(key=lambda x: x['score'], reverse=True)`:
`a` may precede `b` iff `a`'s score is at least `b`'s. -/
def scoreGe (a b : ClsResult) : Prop := b.score ≤ a.score

instance : DecidableRel scoreGe := fun a b => inferInstanceAs (Decidable (b.score ≤ a.score))

instance : IsTotal ClsResult scoreGe :=
  ⟨fun a b => (le_total b.score a.score).imp id id⟩

instance : IsTrans ClsResult scoreGe :=
  ⟨fun _ _ _ hab hbc => le_trans hbc hab⟩

/-- Lines 74-85 of `classify_image`, after decoding: build the per-label
results and sort them by score descending (CPython's sort is stable;
insertion sort with `scoreGe` computes the same stable order). -/
def classifyResults (M : Model) (img : Img) : List ClsResult :=
  List.insertionSort scoreGe (rawResults M img)

/-- The decode abstraction: `Image.open(io.BytesIO(b)).convert('RGB')`,
failing with the exception message on corrupt bytes. -/
abbrev Decoder := Bytes → Except String Img

/-- `classify_image` (lines 53-88): decode, score, sort; any exception is
re-raised as `Classification error: <msg>`. -/
def classify_image (decode : Decoder) (M : Model) (b : Bytes) :
    Except String (List ClsResult) :=
  match decode b with
  | .error e => .error ("Classification error: " ++ e)
  | .ok img => .ok (classifyResults M img)

/-- One detection record (lines 119-128). All coordinate fields are built
from non-negative values, so ℕ is exact. -/
structure Detection where
  x : Nat
  y : Nat
  width : Nat
  height : Nat
  label : String
  confidence : ℚ
  location : String
  description : String
deriving DecidableEq

/-- `detect_regions` (lines 90-133).  `grid_size` is a Python int, possibly
zero or negative.  `width // grid_size` is floor division, which raises
`ZeroDivisionError` when `grid_size = 0`; the surrounding `try` re-raises it
as a `Detection error:` message.  `range(grid_size)` is empty for
non-positive `grid_size` (`Int.toNat` of a negative is 0).  The loop appends
a detection for each qualifying tile, in row-major order.  For positive
`grid_size` the floor divisions are over non-negative operands, so the
`Int.toNat` conversions of the region dimensions and coordinates are exact.
The `[]` branch of the match is unreachable (the label set is non-empty);
CPython would raise `IndexError` at `results[0]` there. -/
def detect_regions (decode : Decoder) (M : Model) (b : Bytes)
    (grid_size : Int) : Except String (List Detection) :=
  match decode b with
  | .error e => .error ("Detection error: " ++ e)
  | .ok img =>
    if grid_size = 0 then
      .error "Detection error: integer division or modulo by zero"
    else
      let region_width := (Int.fdiv (img.width : Int) grid_size).toNat
      let region_height := (Int.fdiv (img.height : Int) grid_size).toNat
      .ok ((List.range grid_size.toNat).foldl (fun acc row =>
        (List.range grid_size.toNat).foldl (fun acc2 col =>
          let x := col * region_width
          let y := row * region_height
          let region := img.cropRect x y region_width region_height
          let results := classifyResults M region
          match results with
          | [] => acc2
          | top :: _ =>
            if top.label ≠ "normal anatomy" ∧ top.score > 0.3 then
              acc2 ++ [{ x := x, y := y,
                         width := region_width, height := region_height,
                         label := top.label, confidence := top.score,
                         location := "region (" ++ toString row ++ ", " ++
                           toString col ++ ")",
                         description := top.label ++
                           " detected in grid position (" ++ toString row ++
                           ", " ++ toString col ++ ")" }]
            else acc2) acc) [])

/-- Python's `int(s)` on a string: optional surrounding whitespace, optional
sign, then decimal digits; anything else raises `ValueError`. -/
def pyIntError (s : String) : String :=
  "invalid literal for int() with base 10: " ++ s

/-- Decimal value of a digit list. -/
def digitsVal (l : List Char) : Nat :=
  l.foldl (fun acc c => 10 * acc + (c.toNat - 48)) 0

/-- The whitespace stripping `int()` performs on its string argument. -/
def stripSpaces (l : List Char) : List Char :=
  ((l.dropWhile Char.isWhitespace).reverse.dropWhile Char.isWhitespace).reverse

/-- Python's `int(s)` for a string argument. -/
def pyInt (s : String) : Except String Int :=
  match stripSpaces s.data with
  | '-' :: ds =>
      if ds ≠ [] ∧ ds.all (·.isDigit) then .ok (-(digitsVal ds : Int))
      else .error (pyIntError s)
  | '+' :: ds =>
      if ds ≠ [] ∧ ds.all (·.isDigit) then .ok (digitsVal ds)
      else .error (pyIntError s)
  | ds =>
      if ds ≠ [] ∧ ds.all (·.isDigit) then .ok (digitsVal ds)
      else .error (pyIntError s)

/-- A multipart request: named file fields and named form fields.
`request.files` / `request.form` lookups take the first binding, as Werkzeug
`MultiDict.get` does. -/
structure Request where
  files : List (String × Bytes)
  form : List (String × String)

/-- Body of a `/classify` response: the 400 `{'error': 'No image provided'}`
body, the success body, or the 500 `{'success': False, 'error': msg}` body. -/
inductive ClassifyBody where
  | noImage
  | ok (results : List ClsResult)
  | err (msg : String)
deriving DecidableEq

/-- The `/classify` handler (lines 145-167): 400 if no `image` file field,
500 with the exception message if classification raises, else 200. -/
def classify (decode : Decoder) (M : Model) (req : Request) :
    ClassifyBody × Nat :=
  match List.lookup "image" req.files with
  | none => (.noImage, 400)
  | some image_bytes =>
    match classify_image decode M image_bytes with
    | .error e => (.err e, 500)
    | .ok results => (.ok results, 200)

/-- Body of a `/detect` response; the success body carries the detections and
the metadata fields `grid_size` and `regions_processed`. -/
inductive DetectBody where
  | noImage
  | ok (detections : List Detection) (grid_size : Int)
      (regions_processed : Int)
  | err (msg : String)
deriving DecidableEq

/-- The `/detect` handler (lines 169-197): 400 if no `image` file field;
otherwise `grid_size = int(request.form.get('grid_size', 3))` (the default 3
is used only when the form field is absent), then `detect_regions`; any
exception in the `try` block (including the `int` parse) yields a 500 with
the exception message. -/
def detect (decode : Decoder) (M : Model) (req : Request) :
    DetectBody × Nat :=
  match List.lookup "image" req.files with
  | none => (.noImage, 400)
  | some image_bytes =>
    match (match List.lookup "grid_size" req.form with
           | none => Except.ok 3
           | some s => pyInt s) with
    | .error e => (.err e, 500)
    | .ok grid_size =>
      match detect_regions decode M image_bytes grid_size with
      | .error e => (.err e, 500)
      | .ok dets => (.ok dets grid_size (grid_size * grid_size), 200)

/-! ### Derived views of the loop in `detect_regions` -/

/-- The per-tile outcome of the loop body of `detect_regions`: classify the
crop at grid cell `(row, col)` and keep a detection iff its top label is
non-normal and scores above the inclusion threshold. -/
def tileDetection (M : Model) (img : Img) (rw rh row col : Nat) :
    Option Detection :=
  match classifyResults M (img.cropRect (col * rw) (row * rh) rw rh) with
  | [] => none
  | top :: _ =>
    if top.label ≠ "normal anatomy" ∧ top.score > 0.3 then
      some { x := col * rw, y := row * rh, width := rw, height := rh,
             label := top.label, confidence := top.score,
             location := "region (" ++ toString row ++ ", " ++
               toString col ++ ")",
             description := top.label ++ " detected in grid position (" ++
               toString row ++ ", " ++ toString col ++ ")" }
    else none

/-- The grid cells `(row, col)` in raster scan order: row 0 all columns,
then row 1, and so on. -/
def rasterPairs (g : Nat) : List (Nat × Nat) :=
  (List.range g).flatMap fun row => (List.range g).map fun col => (row, col)

/-! ### Helper lemmas -/

theorem mem_rasterPairs (g : Nat) (rc : Nat × Nat) :
    rc ∈ rasterPairs g ↔ rc.1 < g ∧ rc.2 < g := by
  obtain ⟨row, col⟩ := rc
  simp [rasterPairs, List.mem_flatMap, List.mem_map, List.mem_range]

theorem length_rasterPairs (g : Nat) : (rasterPairs g).length = g * g := by
  rw [rasterPairs, List.length_flatMap,
    List.map_congr_left (g := fun _ => g) (fun row _ => by simp [Function.comp]),
    List.map_const', List.sum_replicate, List.length_range, smul_eq_mul]

/-- A left fold whose step appends a block for each element flattens to the
initial accumulator followed by the concatenation of the blocks. -/
theorem foldl_eq_append_flatMap {α β : Type} (step : List β → α → List β)
    (f : α → List β) (hstep : ∀ acc x, step acc x = acc ++ f x) :
    ∀ (l : List α) (init : List β), l.foldl step init = init ++ l.flatMap f
  | [], init => by simp
  | a :: l, init => by
    rw [List.foldl_cons, hstep, foldl_eq_append_flatMap step f hstep l,
      List.flatMap_cons, List.append_assoc]

theorem flatMap_toList_eq_filterMap {α β : Type} (f : α → Option β) :
    ∀ l : List α, (l.flatMap fun x => (f x).toList) = l.filterMap f
  | [] => rfl
  | a :: l => by
    cases h : f a <;>
      simp [List.flatMap_cons, h, flatMap_toList_eq_filterMap f l,
        List.filterMap_cons]

theorem filterMap_flatMap_eq {α β γ : Type} (l : List α) (g : α → List β)
    (f : β → Option γ) :
    (l.flatMap g).filterMap f = l.flatMap fun x => (g x).filterMap f := by
  induction l with
  | nil => rfl
  | cons a l ih => simp [List.flatMap_cons, List.filterMap_append, ih]

/-- For a positive divisor, Python's floor division of the non-negative
width/height agrees with natural-number division. -/
theorem fdiv_toNat (n : Nat) (g : Int) (hg : 0 < g) :
    (Int.fdiv (n : Int) g).toNat = n / g.toNat := by
  obtain ⟨m, rfl⟩ : ∃ m : Nat, g = (m : Int) :=
    ⟨g.toNat, (Int.toNat_of_nonneg hg.le).symm⟩
  rw [← Int.ofNat_fdiv, Int.toNat_ofNat, Int.toNat_ofNat]

/-- Cropping the full frame returns the image itself. -/
theorem cropRect_full (img : Img) :
    img.cropRect 0 0 img.width img.height = img := by
  obtain ⟨w, h, p⟩ := img
  simp only [Img.cropRect, Img.mk.injEq, true_and]
  funext i j
  simp

/-- The loop of `detect_regions` computes exactly the raster-order
`filterMap` of the per-tile outcomes. -/
theorem detect_regions_ok (decode : Decoder) (M : Model) (b : Bytes)
    (img : Img) (g : Int) (hb : decode b = .ok img) (hg : g ≠ 0) :
    detect_regions decode M b g =
      .ok ((rasterPairs g.toNat).filterMap fun rc =>
        tileDetection M img (Int.fdiv (img.width : Int) g).toNat
          (Int.fdiv (img.height : Int) g).toNat rc.1 rc.2) := by
  unfold detect_regions
  rw [hb]
  simp only [hg, if_false, ite_false, Except.ok.injEq, if_neg hg]
  set rw0 := (Int.fdiv (img.width : Int) g).toNat with hrw
  set rh0 := (Int.fdiv (img.height : Int) g).toNat with hrh
  have hinner : ∀ row (acc : List Detection),
      (List.range g.toNat).foldl (fun acc2 col =>
        match classifyResults M
            (img.cropRect (col * rw0) (row * rh0) rw0 rh0) with
        | [] => acc2
        | top :: _ =>
          if top.label ≠ "normal anatomy" ∧ top.score > 0.3 then
            acc2 ++ [{ x := col * rw0, y := row * rh0,
                       width := rw0, height := rh0,
                       label := top.label, confidence := top.score,
                       location := "region (" ++ toString row ++ ", " ++
                         toString col ++ ")",
                       description := top.label ++
                         " detected in grid position (" ++ toString row ++
                         ", " ++ toString col ++ ")" }]
          else acc2) acc =
      acc ++ (List.range g.toNat).flatMap fun col =>
        (tileDetection M img rw0 rh0 row col).toList := by
    intro row acc
    refine foldl_eq_append_flatMap _ _ ?_ _ _
    intro acc2 col
    unfold tileDetection
    cases h : classifyResults M
        (img.cropRect (col * rw0) (row * rh0) rw0 rh0) with
    | nil => simp
    | cons top rest =>
      by_cases hc : top.label ≠ "normal anatomy" ∧ top.score > 0.3
      · simp [hc]
      · simp [hc]
  rw [foldl_eq_append_flatMap _
    (fun row => (List.range g.toNat).flatMap fun col =>
      (tileDetection M img rw0 rh0 row col).toList)
    (fun acc row => hinner row acc)]
  rw [List.nil_append, rasterPairs, filterMap_flatMap_eq]
  refine List.flatMap_congr ?_
  intro row _
  rw [List.filterMap_map]
  rw [flatMap_toList_eq_filterMap
    (fun col => tileDetection M img rw0 rh0 row col)]
  rfl

theorem MEDICAL_CONDITIONS_nodup : MEDICAL_CONDITIONS.Nodup := by decide

theorem rawResults_map_label (M : Model) (img : Img) :
    (rawResults M img).map (fun r => r.label) = MEDICAL_CONDITIONS := rfl

theorem classifyResults_perm (M : Model) (img : Img) :
    (classifyResults M img).Perm (rawResults M img) :=
  List.perm_insertionSort _ _

theorem classifyResults_sorted (M : Model) (img : Img) :
    List.Sorted scoreGe (classifyResults M img) :=
  List.sorted_insertionSort _ _

theorem classifyResults_length (M : Model) (img : Img) :
    (classifyResults M img).length = 10 := by
  rw [(classifyResults_perm M img).length_eq]
  simp [rawResults, MEDICAL_CONDITIONS]

theorem classifyResults_ne_nil (M : Model) (img : Img) :
    classifyResults M img ≠ [] := by
  intro h
  have := classifyResults_length M img
  rw [h] at this
  exact absurd this (by decide)

/-- Filtering on a fixed score value commutes with one ordered insertion:
the elements passed over all have strictly larger scores. -/
theorem filter_score_orderedInsert (q : ℚ) (a : ClsResult) :
    ∀ l : List ClsResult,
      (List.orderedInsert scoreGe a l).filter (fun r => r.score = q) =
        if a.score = q then a :: l.filter (fun r => r.score = q)
        else l.filter (fun r => r.score = q)
  | [] => by
    by_cases h : a.score = q <;> simp [List.orderedInsert, h]
  | b :: l => by
    by_cases hr : scoreGe a b
    · by_cases h : a.score = q <;>
        simp [List.orderedInsert, hr, List.filter_cons, h]
    · have hb : a.score < b.score := not_le.mp hr
      by_cases h : a.score = q
      · have hbq : ¬ b.score = q := by
          rw [← h]; exact ne_of_gt hb
        simp [List.orderedInsert, hr, List.filter_cons, hbq, h,
          filter_score_orderedInsert q a l]
      · simp [List.orderedInsert, hr, List.filter_cons, h,
          filter_score_orderedInsert q a l]

/-- Stability of the embedded sort: within one score class, the sorted list
keeps the original order. -/
theorem filter_score_insertionSort (q : ℚ) :
    ∀ l : List ClsResult,
      (List.insertionSort scoreGe l).filter (fun r => r.score = q) =
        l.filter (fun r => r.score = q)
  | [] => rfl
  | a :: l => by
    rw [List.insertionSort,
      filter_score_orderedInsert q a (List.insertionSort scoreGe l)]
    by_cases h : a.score = q <;>
      simp [h, List.filter_cons, filter_score_insertionSort q l]

/-- Anatomy of a successful per-tile outcome. -/
theorem tileDetection_eq_some (M : Model) (img : Img) (rw0 rh0 row col : Nat)
    (d : Detection)
    (h : tileDetection M img rw0 rh0 row col = some d) :
    d.x = col * rw0 ∧ d.y = row * rh0 ∧ d.width = rw0 ∧ d.height = rh0 ∧
    d.label ≠ "normal anatomy" ∧ 0.3 < d.confidence ∧
    d.label = (classifyResults M
      (img.cropRect (col * rw0) (row * rh0) rw0 rh0)).headI.label ∧
    d.confidence = (classifyResults M
      (img.cropRect (col * rw0) (row * rh0) rw0 rh0)).headI.score ∧
    ∀ r ∈ classifyResults M (img.cropRect (col * rw0) (row * rh0) rw0 rh0),
      r.score ≤ d.confidence := by
  unfold tileDetection at h
  cases hres : classifyResults M
      (img.cropRect (col * rw0) (row * rh0) rw0 rh0) with
  | nil => rw [hres] at h; exact absurd h (by simp)
  | cons top rest =>
    rw [hres] at h
    dsimp only at h
    by_cases hc : top.label ≠ "normal anatomy" ∧ top.score > 0.3
    · rw [if_pos hc] at h
      have hd : d = { x := col * rw0, y := row * rh0,
                      width := rw0, height := rh0,
                      label := top.label, confidence := top.score,
                      location := "region (" ++ toString row ++ ", " ++
                        toString col ++ ")",
                      description := top.label ++
                        " detected in grid position (" ++ toString row ++
                        ", " ++ toString col ++ ")" } :=
        (Option.some_inj.mp h).symm
      subst hd
      have hs := classifyResults_sorted M
        (img.cropRect (col * rw0) (row * rh0) rw0 rh0)
      rw [hres, List.sorted_cons] at hs
      refine ⟨rfl, rfl, rfl, rfl, hc.1, hc.2, rfl, rfl, ?_⟩
      intro r hr
      rcases List.mem_cons.mp hr with hrt | hrm
      · rw [hrt]
      · exact hs.1 r hrm
    · rw [if_neg hc] at h
      exact absurd h (by simp)

/-! ### Concrete fixtures -/

/-- A 4×4 black image. -/
def img0 : Img := ⟨4, 4, fun _ _ => (0, 0, 0)⟩

/-- A decoder that accepts any bytes as `img0`. -/
def decode0 : Decoder := fun _ => .ok img0

/-- A decoder that always fails, as `PIL` does on corrupt bytes. -/
def decodeBad : Decoder := fun _ => .error "cannot identify image file"

/-- A model scoring every label 0. -/
def M0 : Model := fun _ _ => 0

/-- A model putting all mass on pneumonia. -/
def M1 : Model := fun _ c => if c = "pneumonia" then 1 else 0

/-- A model scoring every label 1. -/
def Mone : Model := fun _ _ => 1

/-- The detection `Mone` produces for the whole of `img0` on a 1×1 grid. -/
def detFull : Detection :=
  ⟨0, 0, 4, 4, "pneumonia", 1, "region (0, 0)",
   "pneumonia detected in grid position (0, 0)"⟩

def reqNoImage : Request := ⟨[], []⟩

def reqDefaultGrid : Request := ⟨[("image", [0])], []⟩

def reqBadGrid : Request := ⟨[("image", [0])], [("grid_size", "abc")]⟩

def reqNegGrid : Request := ⟨[("image", [0])], [("grid_size", "-2")]⟩

def reqZeroGrid : Request := ⟨[("image", [0])], [("grid_size", "0")]⟩

/-! ### Claims -/

/-- C2 counterexample: the claim says a score of exactly 0.4 resolves to
"medium"; in the code (`probs[i] > 0.4` is strict) it resolves to "low". -/
theorem bucket_at_exactly_0_4_is_low :
    confidenceBucket 0.4 = "low" ∧ confidenceBucket 0.4 ≠ "medium" := by
  have h : confidenceBucket 0.4 = "low" := by norm_num [confidenceBucket]
  exact ⟨h, by rw [h]; decide⟩

/-- C2 (amended): the confidence bucket is a pure function of the score;
at exactly 0.7 it is "medium", at exactly 0.4 it is "low" (both boundaries
use strict `>`), and at 0.70001 it is "high". -/
theorem bucket_boundary_values :
    confidenceBucket 0.7 = "medium" ∧ confidenceBucket 0.4 = "low" ∧
    confidenceBucket 0.70001 = "high" := by
  refine ⟨?_, ?_, ?_⟩ <;> norm_num [confidenceBucket]

/-- C4: the bucket is "high" iff score > 0.7, "medium" iff
0.4 < score ≤ 0.7, and "low" iff score ≤ 0.4. -/
theorem bucket_characterization (s : ℚ) :
    (confidenceBucket s = "high" ↔ 0.7 < s) ∧
    (confidenceBucket s = "medium" ↔ 0.4 < s ∧ s ≤ 0.7) ∧
    (confidenceBucket s = "low" ↔ s ≤ 0.4) := by
  unfold confidenceBucket
  split_ifs with h1 h2
  · exact ⟨⟨fun _ => h1, fun _ => rfl⟩,
      ⟨fun hm => absurd hm (by decide),
       fun hm => absurd h1 (not_lt.mpr hm.2)⟩,
      ⟨fun hl => absurd hl (by decide),
       fun hl => absurd h1 (not_lt.mpr (hl.trans (by norm_num)))⟩⟩
  · exact ⟨⟨fun hh => absurd hh (by decide), fun hs => absurd hs h1⟩,
      ⟨fun _ => ⟨h2, not_lt.mp h1⟩, fun _ => rfl⟩,
      ⟨fun hl => absurd hl (by decide),
       fun hl => absurd h2 (not_lt.mpr hl)⟩⟩
  · exact ⟨⟨fun hh => absurd hh (by decide), fun hs => absurd hs h1⟩,
      ⟨fun hm => absurd hm (by decide), fun hm => absurd hm.1 h2⟩,
      ⟨fun _ => not_lt.mp h2, fun _ => rfl⟩⟩

/-- C5: classification returns one entry per label of the fixed ten-label
set, sorted by score descending, with ties kept in original label order
(stability: each score class is untouched by the sort). -/
theorem classify_sorted_stable_complete (M : Model) (img : Img) :
    ((classifyResults M img).map (fun r => r.label)).Perm MEDICAL_CONDITIONS ∧
    (∀ l ∈ MEDICAL_CONDITIONS,
      ((classifyResults M img).map (fun r => r.label)).count l = 1) ∧
    List.Sorted scoreGe (classifyResults M img) ∧
    (∀ q : ℚ, (classifyResults M img).filter (fun r => r.score = q) =
      (rawResults M img).filter (fun r => r.score = q)) := by
  have hperm : ((classifyResults M img).map (fun r => r.label)).Perm
      MEDICAL_CONDITIONS := by
    rw [← rawResults_map_label M img]
    exact (classifyResults_perm M img).map _
  refine ⟨hperm, ?_, classifyResults_sorted M img,
    fun q => filter_score_insertionSort q _⟩
  intro l hl
  rw [hperm.count_eq l, List.count_eq_one_of_mem MEDICAL_CONDITIONS_nodup hl]

/-- The single tile of a 1×1 grid is the full image. -/
theorem tileDetection_zero_full (M : Model) (img : Img) :
    tileDetection M img img.width img.height 0 0 =
      if (classifyResults M img).headI.label ≠ "normal anatomy" ∧
         (classifyResults M img).headI.score > 0.3
      then some { x := 0, y := 0, width := img.width, height := img.height,
                  label := (classifyResults M img).headI.label,
                  confidence := (classifyResults M img).headI.score,
                  location := "region (0, 0)",
                  description := (classifyResults M img).headI.label ++
                    " detected in grid position (0, 0)" }
      else none := by
  unfold tileDetection
  rw [Nat.zero_mul, Nat.zero_mul, cropRect_full]
  cases hres : classifyResults M img with
  | nil => exact absurd hres (classifyResults_ne_nil M img)
  | cons top rest =>
    dsimp only
    simp only [List.headI, show toString (0 : Nat) = "0" from rfl,
      String.append_assoc,
      show "region (" ++ ("0" ++ (", " ++ ("0" ++ ")"))) = "region (0, 0)"
        from rfl,
      show " detected in grid position (" ++ ("0" ++ (", " ++ ("0" ++ ")"))) =
        " detected in grid position (0, 0)" from rfl]

/-- C3: a `/detect` run with grid_size = 1 degenerates to whole-image
classification restricted to the inclusion filter: the single candidate
tile is the full image, and one detection is emitted iff the whole image's
top label is not "normal anatomy" and its score exceeds 0.3, carrying that
label and score. -/
theorem detect_regions_grid_one (decode : Decoder) (M : Model) (b : Bytes)
    (img : Img) (hb : decode b = .ok img) :
    detect_regions decode M b 1 =
      .ok (if (classifyResults M img).headI.label ≠ "normal anatomy" ∧
              (classifyResults M img).headI.score > 0.3
           then [{ x := 0, y := 0, width := img.width, height := img.height,
                   label := (classifyResults M img).headI.label,
                   confidence := (classifyResults M img).headI.score,
                   location := "region (0, 0)",
                   description := (classifyResults M img).headI.label ++
                     " detected in grid position (0, 0)" }]
           else []) := by
  rw [detect_regions_ok decode M b img 1 hb one_ne_zero]
  have hw : (Int.fdiv (img.width : Int) 1).toNat = img.width := by
    rw [fdiv_toNat img.width 1 (by decide)]
    simp
  have hh : (Int.fdiv (img.height : Int) 1).toNat = img.height := by
    rw [fdiv_toNat img.height 1 (by decide)]
    simp
  have hraster : rasterPairs (1 : Int).toNat = [(0, 0)] := rfl
  rw [hraster, List.filterMap_cons, List.filterMap_nil, hw, hh]
  rw [tileDetection_zero_full M img]
  split_ifs <;> rfl

/-- C3 witness: on the all-zero model every score is 0, so the whole-image
top score fails the 0.3 threshold and the 1×1 grid yields no detection. -/
theorem detect_regions_grid_one_witness :
    detect_regions decode0 M0 [0] 1 = .ok [] := by
  rw [detect_regions_grid_one decode0 M0 [0] img0 rfl]
  norm_num [classifyResults, rawResults, M0, MEDICAL_CONDITIONS,
    confidenceBucket, scoreGe, List.headI]

/-- C6: for a non-zero grid, the detections are exactly the raster-order
`filterMap` of the per-tile outcomes; every emitted detection has a
non-"normal anatomy" label, score above 0.3, and carries the top
(maximal-score) label of its tile's classification. -/
theorem detections_raster_filter (decode : Decoder) (M : Model) (b : Bytes)
    (img : Img) (g : Int) (dets : List Detection)
    (hb : decode b = .ok img) (hg : g ≠ 0)
    (hdet : detect_regions decode M b g = .ok dets) :
    dets = (rasterPairs g.toNat).filterMap (fun rc =>
      tileDetection M img (Int.fdiv (img.width : Int) g).toNat
        (Int.fdiv (img.height : Int) g).toNat rc.1 rc.2) ∧
    ∀ d ∈ dets,
      d.label ≠ "normal anatomy" ∧ 0.3 < d.confidence ∧
      ∃ row col, row < g.toNat ∧ col < g.toNat ∧
        tileDetection M img (Int.fdiv (img.width : Int) g).toNat
          (Int.fdiv (img.height : Int) g).toNat row col = some d ∧
        d.label = (classifyResults M (img.cropRect
          (col * (Int.fdiv (img.width : Int) g).toNat)
          (row * (Int.fdiv (img.height : Int) g).toNat)
          (Int.fdiv (img.width : Int) g).toNat
          (Int.fdiv (img.height : Int) g).toNat)).headI.label ∧
        ∀ r ∈ classifyResults M (img.cropRect
          (col * (Int.fdiv (img.width : Int) g).toNat)
          (row * (Int.fdiv (img.height : Int) g).toNat)
          (Int.fdiv (img.width : Int) g).toNat
          (Int.fdiv (img.height : Int) g).toNat), r.score ≤ d.confidence := by
  rw [detect_regions_ok decode M b img g hb hg] at hdet
  have hdets := (Except.ok.inj hdet).symm
  refine ⟨hdets, ?_⟩
  intro d hd
  rw [hdets] at hd
  obtain ⟨rc, hrc, hsome⟩ := List.mem_filterMap.mp hd
  obtain ⟨hrow, hcol⟩ := (mem_rasterPairs g.toNat rc).mp hrc
  obtain ⟨_, _, _, _, hlab, hconf, hlabel, hscore, hmax⟩ :=
    tileDetection_eq_some M img _ _ rc.1 rc.2 d hsome
  exact ⟨hlab, hconf, rc.1, rc.2, hrow, hcol, hsome, hlabel, hmax⟩

/-- C6 witness: the all-zero model scores every tile below the threshold,
so the raster filter over the 2×2 grid is empty. -/
theorem detections_raster_filter_witness :
    ([] : List Detection) = (rasterPairs (2 : Int).toNat).filterMap (fun rc =>
      tileDetection M0 img0 (Int.fdiv (img0.width : Int) 2).toNat
        (Int.fdiv (img0.height : Int) 2).toNat rc.1 rc.2) :=
  (detections_raster_filter decode0 M0 [0] img0 2 [] rfl (by decide)
    (by
      rw [detect_regions_ok decode0 M0 [0] img0 2 rfl (by decide)]
      norm_num [rasterPairs, tileDetection, classifyResults, rawResults, M0,
        MEDICAL_CONDITIONS, confidenceBucket, scoreGe,
        List.filterMap_cons])).1

/-- C7: with a positive grid size `g`, the `/detect` handler answers 200
with detections drawn from exactly the `g × g` candidate tiles — cell
`(row, col)` is the rectangle at `(col·(W//g), row·(H//g))` of size
`(W//g, H//g)` (right/bottom remainder pixels dropped), in raster order —
and the metadata reports `regions_processed = g²`. -/
theorem detect_tiling_geometry (decode : Decoder) (M : Model) (req : Request)
    (b : Bytes) (img : Img) (g : Int)
    (himg : List.lookup "image" req.files = some b)
    (hb : decode b = .ok img)
    (hgs : (match List.lookup "grid_size" req.form with
            | none => Except.ok 3
            | some s => pyInt s) = Except.ok g)
    (hg : 0 < g) :
    detect decode M req =
      (DetectBody.ok ((rasterPairs g.toNat).filterMap fun rc =>
        tileDetection M img (img.width / g.toNat) (img.height / g.toNat)
          rc.1 rc.2) g (g * g), 200) ∧
    (∀ rc : Nat × Nat,
      rc ∈ rasterPairs g.toNat ↔ rc.1 < g.toNat ∧ rc.2 < g.toNat) ∧
    (rasterPairs g.toNat).length = g.toNat * g.toNat ∧
    (∀ rc ∈ rasterPairs g.toNat, ∀ d : Detection,
      tileDetection M img (img.width / g.toNat) (img.height / g.toNat)
        rc.1 rc.2 = some d →
      d.x = rc.2 * (img.width / g.toNat) ∧
      d.y = rc.1 * (img.height / g.toNat) ∧
      d.width = img.width / g.toNat ∧ d.height = img.height / g.toNat) := by
  refine ⟨?_, mem_rasterPairs g.toNat, length_rasterPairs g.toNat, ?_⟩
  · have hdr := detect_regions_ok decode M b img g hb hg.ne'
    rw [fdiv_toNat img.width g hg, fdiv_toNat img.height g hg] at hdr
    simp only [detect, himg, hgs, hdr]
  · intro rc _ d hsome
    obtain ⟨hx, hy, hw, hh, _⟩ := tileDetection_eq_some M img _ _ rc.1 rc.2 d hsome
    exact ⟨hx, hy, hw, hh⟩

/-- C7 witness: a request carrying an image and no grid_size field uses the
default grid 3. -/
theorem detect_tiling_geometry_witness :
    detect decode0 M0 reqDefaultGrid =
      (DetectBody.ok ((rasterPairs (3 : Int).toNat).filterMap fun rc =>
        tileDetection M0 img0 (img0.width / (3 : Int).toNat)
          (img0.height / (3 : Int).toNat) rc.1 rc.2) 3 (3 * 3), 200) :=
  (detect_tiling_geometry decode0 M0 reqDefaultGrid [0] img0 3 rfl rfl rfl
    (by decide)).1

/-- C9: with a positive grid size, every emitted detection's rectangle lies
within the image bounds. -/
theorem detections_within_bounds (decode : Decoder) (M : Model) (b : Bytes)
    (img : Img) (g : Int) (dets : List Detection)
    (hb : decode b = .ok img) (hg : 0 < g)
    (hdet : detect_regions decode M b g = .ok dets) :
    ∀ d ∈ dets, d.x + d.width ≤ img.width ∧
      d.y + d.height ≤ img.height := by
  rw [detect_regions_ok decode M b img g hb hg.ne'] at hdet
  have hdets := (Except.ok.inj hdet).symm
  intro d hd
  rw [hdets] at hd
  obtain ⟨rc, hrc, hsome⟩ := List.mem_filterMap.mp hd
  obtain ⟨hrow, hcol⟩ := (mem_rasterPairs g.toNat rc).mp hrc
  obtain ⟨hx, hy, hw, hh, _⟩ := tileDetection_eq_some M img _ _ rc.1 rc.2 d hsome
  rw [fdiv_toNat img.width g hg] at hx hw
  rw [fdiv_toNat img.height g hg] at hy hh
  constructor
  · rw [hx, hw]
    calc rc.2 * (img.width / g.toNat) + img.width / g.toNat
        = (rc.2 + 1) * (img.width / g.toNat) := by ring
      _ ≤ g.toNat * (img.width / g.toNat) :=
          Nat.mul_le_mul_right _ hcol
      _ = img.width / g.toNat * g.toNat := Nat.mul_comm _ _
      _ ≤ img.width := Nat.div_mul_le_self _ _
  · rw [hy, hh]
    calc rc.1 * (img.height / g.toNat) + img.height / g.toNat
        = (rc.1 + 1) * (img.height / g.toNat) := by ring
      _ ≤ g.toNat * (img.height / g.toNat) :=
          Nat.mul_le_mul_right _ hrow
      _ = img.height / g.toNat * g.toNat := Nat.mul_comm _ _
      _ ≤ img.height := Nat.div_mul_le_self _ _

/-- C9 witness: on the all-ones model a 1×1 grid emits the full-frame
detection, which lies within the bounds of `img0`. -/
theorem detections_within_bounds_witness :
    detFull.x + detFull.width ≤ img0.width ∧
    detFull.y + detFull.height ≤ img0.height :=
  detections_within_bounds decode0 Mone [0] img0 1 [detFull] rfl (by decide)
    (by
      rw [detect_regions_ok decode0 Mone [0] img0 1 rfl (by decide)]
      norm_num [rasterPairs, tileDetection, classifyResults, rawResults,
        Mone, img0, detFull, MEDICAL_CONDITIONS, confidenceBucket, scoreGe,
        Img.cropRect, List.filterMap_cons, List.filterMap_nil,
        List.range_succ, List.range_zero, List.flatMap_cons,
        List.flatMap_nil, Int.toNat_ofNat,
        show ¬("pneumonia" = "normal anatomy") from by decide,
        show toString (0 : Nat) = "0" from rfl, String.append_assoc,
        show "region (" ++ ("0" ++ (", " ++ ("0" ++ ")"))) = "region (0, 0)"
          from rfl,
        show " detected in grid position (" ++
            ("0" ++ (", " ++ ("0" ++ ")"))) =
          " detected in grid position (0, 0)" from rfl]
      exact ⟨rfl, rfl⟩)
    detFull (List.mem_singleton.mpr rfl)

/-- C1 counterexample: a `/detect` request whose grid_size field is present
but unparseable gets a 500, not a 4xx-style status: `int()` raises inside
the handler's `try`, whose catch-all answers 500. -/
theorem detect_unparseable_grid_not_4xx :
    (detect decode0 M0 reqBadGrid).2 = 500 ∧
    ¬ (detect decode0 M0 reqBadGrid).2 < 500 := by
  constructor <;> decide

/-- C1 (amended): for every `/detect` request whose grid_size form field is
present but not parseable as an integer, the response is a 500-style server
error carrying the parse-failure message, and no inference (indeed not even
decoding) is run for that request: the response is the same for every model
and every decoder. -/
theorem detect_unparseable_grid_500_no_inference
    (decode decode' : Decoder) (M M' : Model) (req : Request)
    (b : Bytes) (s e : String)
    (himg : List.lookup "image" req.files = some b)
    (hgs : List.lookup "grid_size" req.form = some s)
    (hparse : pyInt s = .error e) :
    detect decode M req = (.err e, 500) ∧
    detect decode M req = detect decode' M' req := by
  simp only [detect, himg, hgs, hparse]
  exact ⟨trivial, trivial⟩

/-- C1 witness. -/
theorem detect_unparseable_grid_500_no_inference_witness :
    detect decode0 M0 reqBadGrid = (.err (pyIntError "abc"), 500) ∧
    detect decode0 M0 reqBadGrid = detect decodeBad M1 reqBadGrid :=
  detect_unparseable_grid_500_no_inference decode0 decodeBad M0 M1
    reqBadGrid [0] "abc" (pyIntError "abc") rfl rfl rfl

/-- C8: on `/classify` and `/detect`, a missing `image` file field yields a
400 without running decoding or inference (the response is the same for
every decoder and model); a decode failure is caught and yields a 500
carrying the exception's message.  Both handlers are total functions, so
the process keeps serving. -/
theorem handlers_error_paths (decode decode' : Decoder) (M M' : Model)
    (req : Request) :
    (List.lookup "image" req.files = none →
      classify decode M req = (.noImage, 400) ∧
      detect decode M req = (.noImage, 400) ∧
      classify decode M req = classify decode' M' req ∧
      detect decode M req = detect decode' M' req) ∧
    (∀ b e, List.lookup "image" req.files = some b →
      decode b = .error e →
      classify decode M req =
        (.err ("Classification error: " ++ e), 500) ∧
      ∀ g : Int, (match List.lookup "grid_size" req.form with
                  | none => Except.ok 3
                  | some s => pyInt s) = Except.ok g →
        detect decode M req = (.err ("Detection error: " ++ e), 500)) := by
  constructor
  · intro h
    simp only [classify, detect, h]
    exact ⟨trivial, trivial, trivial, trivial⟩
  · intro b e himg hdec
    constructor
    · simp only [classify, himg, classify_image, hdec]
    · intro g hgs
      simp only [detect, himg, hgs, detect_regions, hdec]

/-- C8 witness: a request without an image field, and a request whose bytes
fail to decode (under the default grid size). -/
theorem handlers_error_paths_witness :
    classify decodeBad M0 reqNoImage = (.noImage, 400) ∧
    detect decodeBad M0 reqNoImage = (.noImage, 400) ∧
    classify decodeBad M0 reqDefaultGrid =
      (.err ("Classification error: " ++ "cannot identify image file"), 500) ∧
    detect decodeBad M0 reqDefaultGrid =
      (.err ("Detection error: " ++ "cannot identify image file"), 500) :=
  ⟨((handlers_error_paths decodeBad decode0 M0 M1 reqNoImage).1 rfl).1,
   ((handlers_error_paths decodeBad decode0 M0 M1 reqNoImage).1 rfl).2.1,
   ((handlers_error_paths decodeBad decode0 M0 M1 reqDefaultGrid).2 [0]
      "cannot identify image file" rfl rfl).1,
   ((handlers_error_paths decodeBad decode0 M0 M1 reqDefaultGrid).2 [0]
      "cannot identify image file" rfl rfl).2 3 rfl⟩

/-- C10: a degenerate grid_size on `/detect` with a valid image: a negative
value classifies no tile (the loop body never runs, so the response is the
same for every model) and succeeds with an empty detections list and
`regions_processed = grid_size²`, a positive number; a zero value makes the
floor division raise, and the handler answers 500 with the
division-by-zero message. -/
theorem detect_degenerate_grid (decode : Decoder) (M : Model)
    (req : Request) (b : Bytes) (img : Img) (s : String) (g : Int)
    (himg : List.lookup "image" req.files = some b)
    (hb : decode b = .ok img)
    (hgs : List.lookup "grid_size" req.form = some s)
    (hparse : pyInt s = .ok g) :
    (g < 0 →
      detect decode M req = (.ok [] g (g * g), 200) ∧ 0 < g * g ∧
      ∀ M' : Model, detect decode M' req = detect decode M req) ∧
    (g = 0 →
      detect decode M req =
        (.err "Detection error: integer division or modulo by zero", 500)) := by
  constructor
  · intro hneg
    have hg0 : g ≠ 0 := hneg.ne
    have htoNat : g.toNat = 0 := Int.toNat_of_nonpos hneg.le
    have hdr : ∀ M'' : Model, detect_regions decode M'' b g = .ok [] := by
      intro M''
      rw [detect_regions_ok decode M'' b img g hb hg0, htoNat]
      rfl
    refine ⟨?_, mul_pos_of_neg_of_neg hneg hneg, ?_⟩
    · simp only [detect, himg, hgs, hparse, hdr M]
    · intro M'
      simp only [detect, himg, hgs, hparse, hdr M', hdr M]
  · rintro rfl
    simp only [detect, himg, hgs, hparse, detect_regions, hb, if_true]

/-- C10 witness: grid_size "-2" succeeds with no detections and
regions_processed 4; grid_size "0" yields the division-by-zero 500. -/
theorem detect_degenerate_grid_witness :
    detect decode0 M0 reqNegGrid = (.ok [] (-2) ((-2) * (-2)), 200) ∧
    detect decode0 M0 reqZeroGrid =
      (.err "Detection error: integer division or modulo by zero", 500) :=
  ⟨((detect_degenerate_grid decode0 M0 reqNegGrid [0] img0 "-2" (-2)
      rfl rfl rfl rfl).1 (by decide)).1,
   (detect_degenerate_grid decode0 M0 reqZeroGrid [0] img0 "0" 0
      rfl rfl rfl rfl).2 rfl⟩

end MedSig
